import Mathlib

/-!
# Shallow embedding of `src/app.py` — stationery stock tracker

The repository is a single-file application over a flat inventory table.
This development embeds its data-management core as pure Lean functions:

* a row of the table (`Item`), with `Option String` for cells that pandas
  may hold as NaN (`item_id` after a hand-edited file, `remarks`);
* `generate_item_id` (src/app.py:46-58);
* `apply_filters` (src/app.py:79-86);
* `load_data`'s numeric coercion (src/app.py:31-39);
* the submitted-form handlers of `page_add_edit` (add at 139-161, update at
  194-210), `page_issue_receive` (236-258) and `page_admin`'s delete (281-284),
  as functions from the loaded table and the validated form inputs to either
  an error or the table that `save_data` then persists.

Python `int(s)` on a dash-free segment is modelled as a decimal-digit parse,
Python `str.strip()` as a character-list trim (`py_strip`), pandas positional
indexing `[0]` on an empty index as an explicit `indexError` outcome, and the
Streamlit widgets as the function arguments they produce (the spec's
presentation-layer contract: validated primitive inputs).
-/

/-- One inventory row. `quantity` and `reorder_level` are integers after
`load_data`'s coercion. `item_id` and `remarks` are `Option` because a CSV
cell can be missing (pandas NaN): `generate_item_id` calls `dropna()` on the
id column and `page_issue_receive` tests `pd.isna` on `remarks`. -/
structure Item where
  item_id : Option String
  item_name : String
  category : String
  unit : String
  quantity : Int
  reorder_level : Int
  location : String
  last_updated : String
  remarks : Option String
  deriving Repr, DecidableEq

/-- The in-memory inventory table: an ordered list of rows. -/
abbrev Table := List Item

/-- Python `x.split(sep)` for a one-character separator, over the character
list of the string (used by `generate_item_id` as `split("-")`). -/
def splitOnChar (sep : Char) : List Char → List (List Char)
  | [] => [[]]
  | c :: rest =>
    match splitOnChar sep rest with
    | [] => [[]]
    | h :: t => if c = sep then [] :: h :: t else (c :: h) :: t

/-- Numeric value of a digit string, most significant digit first. -/
def digitsVal (l : List Char) : Nat :=
  l.foldl (fun a c => 10 * a + (c.toNat - 48)) 0

/-- Model of Python `int(s)` for a string containing no `-` (every argument in
`generate_item_id` is a `split("-")` segment, hence dash-free): succeeds
exactly on nonempty all-digit strings, `ValueError` (`none`) otherwise. -/
def parse_int (l : List Char) : Option Nat :=
  if l ≠ [] ∧ l.all Char.isDigit then some (digitsVal l) else none

/-- `int(str(x).split("-")[-1])` from `generate_item_id`; `none` is the
caught `ValueError`. -/
def parse_suffix (x : String) : Option Nat :=
  parse_int ((splitOnChar '-' x.data).getLastD [])

/-- Decimal digits of `n`, most significant first; fuel-based so that it
reduces in the kernel. Called with `fuel ≥ n`. -/
def natCharsAux : Nat → Nat → List Char
  | 0, _ => []
  | fuel + 1, n =>
    if n = 0 then []
    else natCharsAux fuel (n / 10) ++ [Char.ofNat (48 + n % 10)]

/-- Python `str(n)` for a nonnegative int: decimal digits, no sign. -/
def natChars (n : Nat) : List Char :=
  if n = 0 then ['0'] else natCharsAux n n

/-- `f"{n:04d}"`: the decimal representation zero-padded to width 4. -/
def pad4 (n : Nat) : String :=
  String.mk (List.replicate (4 - (natChars n).length) '0' ++ natChars n)

/-- The `nums` list built by `generate_item_id`'s loop: suffixes of the
non-NaN ids that parse as integers (`dropna`, then try/except `int`). -/
def parsed_suffix_nums (df : Table) : List Nat :=
  (df.filterMap Item.item_id).filterMap parse_suffix

/-- `generate_item_id(df)` (src/app.py:46-58). -/
def generate_item_id (df : Table) : String :=
  if df.isEmpty then "STN-0001"
  else
    let nums := parsed_suffix_nums df
    let next_num := if nums.isEmpty then 1 else nums.foldl Nat.max 0 + 1
    "STN-" ++ pad4 next_num

/-- `apply_filters(df, category_filter, location_filter, low_stock_only)`
(src/app.py:79-86). The multiselect values are Python lists and
`if category_filter:` is the nonempty test; `.isin(...)` is membership;
the low-stock mask is `quantity <= reorder_level`. -/
def apply_filters (df : Table) (category_filter location_filter : List String)
    (low_stock_only : Bool) : Table :=
  let df1 := if category_filter.isEmpty then df
    else df.filter (fun r => r.category ∈ category_filter)
  let df2 := if location_filter.isEmpty then df1
    else df1.filter (fun r => r.location ∈ location_filter)
  if low_stock_only then df2.filter (fun r => r.quantity ≤ r.reorder_level)
  else df2

/-- The delete handler of `page_admin` (src/app.py:281-284):
`df[df["item_id"] != selected_id]` keeps every row whose id differs (a NaN id
compares unequal in pandas, so such rows are kept too). -/
def deleteItem (df : Table) (selected_id : String) : Table :=
  df.filter (fun r => r.item_id ≠ some selected_id)

/-- A concrete sample row used by witnesses and counterexamples: quantity 5,
reorder level 10, no remarks yet. -/
def sampleItem : Item where
  item_id := some "STN-0001"
  item_name := "A4 Paper"
  category := "Paper"
  unit := "Nos"
  quantity := 5
  reorder_level := 10
  location := "Main Store"
  last_updated := "2024-05-01 10:00:00"
  remarks := none

/-- A second sample row: different id, and existing remarks text that starts
and ends with characters outside the strip set. -/
def sampleItem2 : Item :=
  { sampleItem with item_id := some "STN-0002", remarks := some "initial note" }

/-- Python `s.strip()` with no argument (used on every text input): trim
whitespace from both ends. -/
def py_strip (s : String) : String :=
  String.mk (((s.data.dropWhile Char.isWhitespace).reverse.dropWhile
    Char.isWhitespace).reverse)

/-- Python `s or d` for strings — the empty string is falsy: the
field-default idiom `category.strip() or "Uncategorized"` of
src/app.py:150-154 and 201-203. -/
def orDefault (s d : String) : String :=
  if s = "" then d else s

/-- Failure modes of the form handlers. `validation` and `insufficientStock`
are the `st.error` early returns (src/app.py:141, 196, 242); `indexError` is
the uncaught Python `IndexError` that
`df.index[df["item_id"] == selected_id][0]` raises when no row matches
(src/app.py:199, 237); `notFound` is the recoverable not-found error kind the
specification posits — no code path produces it. -/
inductive AppError where
  | validation
  | notFound
  | insufficientStock
  | indexError
  deriving Repr, DecidableEq

deriving instance DecidableEq for Except

/-- The `new_row` dict of src/app.py:147-157: fresh id, stripped inputs,
defaults for blank optional fields, timestamp `now`. -/
def new_item_row (df : Table) (item_name category unit location : String)
    (quantity reorder_level : Int) (remarks now : String) : Item where
  item_id := some (generate_item_id df)
  item_name := py_strip item_name
  category := orDefault (py_strip category) "Uncategorized"
  unit := orDefault (py_strip unit) "Nos"
  quantity := quantity
  reorder_level := reorder_level
  location := orDefault (py_strip location) "Not specified"
  last_updated := now
  remarks := some (py_strip remarks)

/-- The add-item branch of `page_add_edit` on submit (src/app.py:139-161):
widget inputs in, either the empty-name `st.error` early return or the table
that `save_data` persists — the new row appended by `pd.concat`. `now` stands
for `datetime.now().strftime("%Y-%m-%d %H:%M:%S")`. -/
def addItem (df : Table) (item_name category unit location : String)
    (quantity reorder_level : Int) (remarks now : String) :
    Except AppError Table :=
  if py_strip item_name = "" then .error .validation
  else
    .ok (df ++ [new_item_row df item_name category unit location quantity
      reorder_level remarks now])

/-- The update branch of `page_add_edit` on submit (src/app.py:194-210). The
row position is `df.index[df["item_id"] == selected_id][0]`; with no matching
row that `[0]` raises `IndexError`. The inner `match` arm for an out-of-range
position is unreachable: `findIdx?` only returns in-range indices. -/
def updateItem (df : Table)
    (selected_id item_name category unit location : String)
    (quantity reorder_level : Int) (remarks now : String) :
    Except AppError Table :=
  if py_strip item_name = "" then .error .validation
  else
    match df.findIdx? (fun r => r.item_id = some selected_id) with
    | none => .error .indexError
    | some idx =>
      match df[idx]? with
      | none => .error .indexError
      | some row =>
        .ok (df.set idx
          { row with
            item_name := py_strip item_name
            category := orDefault (py_strip category) "Uncategorized"
            unit := orDefault (py_strip unit) "Nos"
            location := orDefault (py_strip location) "Not specified"
            quantity := quantity
            reorder_level := reorder_level
            remarks := some (py_strip remarks)
            last_updated := now })

/-- The transaction radio of `page_issue_receive` (src/app.py:229): its two
labels are `"Issue (decrease stock)"` and `"Receive (increase stock)"`. -/
inductive TxnMode where
  | issue
  | receive
  deriving Repr, DecidableEq

/-- `mode.split()[0]` (src/app.py:240, 254, 258): the first word of the radio
label. -/
def mode_word : TxnMode → String
  | .issue => "Issue"
  | .receive => "Receive"

/-- The audit f-string of src/app.py:254:
`f"[{now}] {mode.split()[0]} {int(qty)} ({reason})"`. -/
def audit_line (now word qtyStr reason : String) : String :=
  "[" ++ now ++ "] " ++ word ++ " " ++ qtyStr ++ " (" ++ reason ++ ")"

/-- The character set of Python `s.strip(" |")`: space or pipe. -/
def spacePipe (c : Char) : Bool :=
  c = ' ' ∨ c = '|'

/-- Python `s.strip(" |")` (src/app.py:255): drop every leading and every
trailing space or `|`. -/
def strip_space_pipe (s : String) : String :=
  String.mk (((s.data.dropWhile spacePipe).reverse.dropWhile spacePipe).reverse)

/-- The row as rewritten by lines 248-255 of src/app.py: new quantity,
restamped `last_updated`, and the audit line appended to `remarks`, where a
NaN `remarks` reads as `""` (line 253, `pd.isna` test) and the joined text is
stripped of leading and trailing `" |"` characters (line 255). -/
def txn_row (row : Item) (new_qty : Int) (mode : TxnMode) (qty : Int)
    (reason now : String) : Item :=
  let old_remarks := match row.remarks with
    | some s => s
    | none => ""
  let line := audit_line now (mode_word mode) (toString qty) reason
  { row with
    quantity := new_qty
    last_updated := now
    remarks := some (strip_space_pipe (old_remarks ++ " | " ++ line)) }

/-- Lines 248-255 of src/app.py: write the rewritten row back at position
`idx` (`df.at[idx, ...] = ...`). -/
def txn_apply (df : Table) (idx : Nat) (row : Item) (new_qty : Int)
    (mode : TxnMode) (qty : Int) (reason now : String) : Table :=
  df.set idx (txn_row row new_qty mode qty reason now)

/-- The submitted transaction form of `page_issue_receive`
(src/app.py:236-258): either the table handed to `save_data`, or the failure
that prevented any write — `insufficientStock` for the guarded issue
(src/app.py:241-243, an `st.error` early return leaving the in-memory table
untouched), `indexError` for an id with no row (uncaught, src/app.py:237).
The inner `match` arm for an out-of-range position is unreachable. -/
def page_issue_receive_txn (df : Table) (selected_id : String)
    (mode : TxnMode) (qty : Int) (reason now : String) :
    Except AppError Table :=
  match df.findIdx? (fun r => r.item_id = some selected_id) with
  | none => .error .indexError
  | some idx =>
    match df[idx]? with
    | none => .error .indexError
    | some row =>
      match mode with
      | .issue =>
        if qty > row.quantity then .error .insufficientStock
        else .ok (txn_apply df idx row (row.quantity - qty) .issue qty reason now)
      | .receive =>
        .ok (txn_apply df idx row (row.quantity + qty) .receive qty reason now)

/-- `save_data` runs only on success (src/app.py:160, 209, 257; the failing
paths return before it): the persisted table after the interaction is the
`ok` result, otherwise the previously stored one. -/
def persist (stored : Table) (result : Except AppError Table) : Table :=
  match result with
  | .ok t => t
  | .error _ => stored

lemma digitsVal_append_singleton (xs : List Char) (c : Char) :
    digitsVal (xs ++ [c]) = 10 * digitsVal xs + (c.toNat - 48) := by
  simp [digitsVal, List.foldl_append]

lemma toNat_digitChar (d : Nat) (hd : d < 10) :
    (Char.ofNat (48 + d)).toNat = 48 + d := by
  interval_cases d <;> decide

lemma isDigit_digitChar (d : Nat) (hd : d < 10) :
    (Char.ofNat (48 + d)).isDigit = true := by
  interval_cases d <;> decide

lemma digitsVal_natCharsAux (fuel n : Nat) (h : n ≤ fuel) :
    digitsVal (natCharsAux fuel n) = n := by
  induction fuel generalizing n with
  | zero =>
    interval_cases n
    simp [natCharsAux, digitsVal]
  | succ f ih =>
    by_cases hn : n = 0
    · simp [natCharsAux, hn, digitsVal]
    · have hdiv : n / 10 ≤ f := by omega
      rw [natCharsAux, if_neg hn, digitsVal_append_singleton, ih _ hdiv,
        toNat_digitChar _ (Nat.mod_lt _ (by norm_num))]
      omega

lemma digitsVal_natChars (n : Nat) : digitsVal (natChars n) = n := by
  by_cases hn : n = 0
  · simp [natChars, hn, digitsVal]
  · rw [natChars, if_neg hn, digitsVal_natCharsAux n n le_rfl]

lemma all_isDigit_natCharsAux (fuel n : Nat) :
    (natCharsAux fuel n).all Char.isDigit = true := by
  induction fuel generalizing n with
  | zero => simp [natCharsAux]
  | succ f ih =>
    by_cases hn : n = 0
    · simp [natCharsAux, hn]
    · rw [natCharsAux, if_neg hn]
      simp only [List.all_append, ih, Bool.true_and, List.all_cons,
        List.all_nil, Bool.and_true]
      exact isDigit_digitChar _ (Nat.mod_lt _ (by norm_num))

lemma all_isDigit_natChars (n : Nat) : (natChars n).all Char.isDigit = true := by
  by_cases hn : n = 0
  · simp [natChars, hn]
  · rw [natChars, if_neg hn]; exact all_isDigit_natCharsAux n n

lemma natChars_ne_nil (n : Nat) : natChars n ≠ [] := by
  by_cases hn : n = 0
  · simp [natChars, hn]
  · rw [natChars, if_neg hn]
    obtain ⟨f, rfl⟩ : ∃ f, n = f + 1 := ⟨n - 1, by omega⟩
    rw [natCharsAux, if_neg hn]
    simp

lemma digitsVal_replicate_zero_append (k : Nat) (l : List Char) :
    digitsVal (List.replicate k '0' ++ l) = digitsVal l := by
  induction k with
  | zero => simp
  | succ m ih =>
    rw [List.replicate_succ]
    simpa [digitsVal] using ih

lemma splitOnChar_ne_nil (sep : Char) (l : List Char) :
    splitOnChar sep l ≠ [] := by
  cases l with
  | nil => simp [splitOnChar]
  | cons c rest =>
    rw [splitOnChar]
    rcases hs : splitOnChar sep rest with _ | ⟨h, t⟩
    · simp
    · by_cases hc : c = sep <;> simp [hc]

lemma splitOnChar_no_sep (sep : Char) (l : List Char) (h : sep ∉ l) :
    splitOnChar sep l = [l] := by
  induction l with
  | nil => rfl
  | cons c rest ih =>
    have hc : ¬ c = sep := fun hh => h (hh ▸ List.mem_cons_self c rest)
    have hrest : sep ∉ rest := fun hh => h (List.mem_cons_of_mem c hh)
    rw [splitOnChar, ih hrest]
    simp [hc]

lemma length_splitOnChar (sep : Char) (l : List Char) :
    (splitOnChar sep l).length = l.count sep + 1 := by
  induction l with
  | nil => simp [splitOnChar]
  | cons c rest ih =>
    rw [splitOnChar]
    rcases hs : splitOnChar sep rest with _ | ⟨h, t⟩
    · exact absurd hs (splitOnChar_ne_nil sep rest)
    · rw [hs] at ih
      by_cases hc : c = sep
      · subst hc
        show (if c = c then [] :: h :: t else (c :: h) :: t).length
            = List.count c (c :: rest) + 1
        rw [if_pos rfl, List.count_cons_self]
        simp only [List.length_cons] at ih ⊢
        omega
      · simp only [if_neg hc, List.length_cons]
        rw [List.count_cons_of_ne (fun hh => hc hh.symm)]
        simp only [List.length_cons] at ih
        omega

lemma getLastD_cons_of_ne_nil {α : Type} (x : α) (t : List α) (ht : t ≠ [])
    (d : α) : (x :: t).getLastD d = t.getLastD d := by
  rw [List.getLastD_cons, List.getLastD_eq_getLast?, List.getLastD_eq_getLast?]
  rcases hl : t.getLast? with _ | z
  · exact absurd (List.getLast?_eq_none_iff.mp hl) ht
  · rfl

lemma getLastD_splitOnChar_append (sep : Char) (xs ys : List Char)
    (h : sep ∉ ys) : (splitOnChar sep (xs ++ sep :: ys)).getLastD [] = ys := by
  induction xs with
  | nil =>
    rw [List.nil_append, splitOnChar, splitOnChar_no_sep sep ys h]
    simp [List.getLastD_cons]
  | cons c xs ih =>
    rw [List.cons_append, splitOnChar]
    rcases hs : splitOnChar sep (xs ++ sep :: ys) with _ | ⟨hd, t⟩
    · exact absurd hs (splitOnChar_ne_nil sep _)
    · have hlen : (splitOnChar sep (xs ++ sep :: ys)).length ≥ 2 := by
        rw [length_splitOnChar]
        have : sep ∈ xs ++ sep :: ys := List.mem_append_right _ (List.mem_cons_self _ _)
        have := List.count_pos_iff.mpr this
        omega
      have ht : t ≠ [] := by
        intro hte
        rw [hs, hte] at hlen
        simp at hlen
      have hrec : (hd :: t).getLastD [] = ys := hs ▸ ih
      rw [getLastD_cons_of_ne_nil hd t ht] at hrec
      show ((if c = sep then [] :: hd :: t else (c :: hd) :: t).getLastD []) = ys
      by_cases hc : c = sep
      · rw [if_pos hc]
        rw [List.getLastD_cons, getLastD_cons_of_ne_nil hd t ht]
        exact hrec
      · rw [if_neg hc]
        rw [getLastD_cons_of_ne_nil (c :: hd) t ht]
        exact hrec

lemma not_mem_of_all_isDigit (l : List Char) (hl : l.all Char.isDigit = true) :
    '-' ∉ l := by
  intro hm
  have := List.all_eq_true.mp hl '-' hm
  simp [Char.isDigit] at this

lemma parse_suffix_generated (n : Nat) :
    parse_suffix ("STN-" ++ pad4 n) = some n := by
  have hdata : ("STN-" ++ pad4 n).data =
      ['S', 'T', 'N'] ++ '-' :: (List.replicate (4 - (natChars n).length) '0' ++ natChars n) := by
    rw [String.data_append]
    rfl
  have hdig : (List.replicate (4 - (natChars n).length) '0' ++ natChars n).all
      Char.isDigit = true := by
    simp only [List.all_append, Bool.and_eq_true]
    refine ⟨?_, all_isDigit_natChars n⟩
    simp [List.all_eq_true]
  have hnosep : '-' ∉ List.replicate (4 - (natChars n).length) '0' ++ natChars n :=
    not_mem_of_all_isDigit _ hdig
  have hne : List.replicate (4 - (natChars n).length) '0' ++ natChars n ≠ [] := by
    simp [natChars_ne_nil n]
  rw [parse_suffix, hdata, getLastD_splitOnChar_append _ _ _ hnosep, parse_int,
    if_pos ⟨hne, hdig⟩, digitsVal_replicate_zero_append, digitsVal_natChars]

lemma le_foldl_max_init (l : List Nat) (a : Nat) : a ≤ l.foldl Nat.max a := by
  induction l generalizing a with
  | nil => exact le_rfl
  | cons b t ih => exact le_trans (Nat.le_max_left a b) (ih (Nat.max a b))

lemma le_foldl_max (l : List Nat) (a x : Nat) (hx : x ∈ l) :
    x ≤ l.foldl Nat.max a := by
  induction l generalizing a with
  | nil => cases hx
  | cons b t ih =>
    rcases List.mem_cons.mp hx with rfl | hxt
    · exact le_trans (Nat.le_max_right a x) (le_foldl_max_init t (Nat.max a x))
    · exact ih (Nat.max a b) hxt

/-- The id returned by `generate_item_id` does not occur in the table. -/
lemma generate_item_id_fresh (df : Table) (r : Item) (hr : r ∈ df) :
    r.item_id ≠ some (generate_item_id df) := by
  intro hid
  have hne : ¬ df.isEmpty := by
    cases df with
    | nil => cases hr
    | cons a t => simp
  rw [generate_item_id, if_neg hne] at hid
  set nums := parsed_suffix_nums df with hnums
  set next_num := if nums.isEmpty then 1 else nums.foldl Nat.max 0 + 1 with hnext
  have hmem : ("STN-" ++ pad4 next_num) ∈ df.filterMap Item.item_id :=
    List.mem_filterMap.mpr ⟨r, hr, hid⟩
  have hparse : next_num ∈ nums := by
    rw [hnums, parsed_suffix_nums]
    exact List.mem_filterMap.mpr ⟨_, hmem, parse_suffix_generated next_num⟩
  by_cases hempty : nums.isEmpty
  · rw [List.isEmpty_iff] at hempty
    rw [hempty] at hparse
    cases hparse
  · have hle : next_num ≤ nums.foldl Nat.max 0 := le_foldl_max nums 0 _ hparse
    rw [hnext, if_neg hempty] at hle
    omega

/-- Claim C1: `generate_item_id` returns `"STN-0001"` on the empty table;
otherwise its result is `"STN-"` followed by the 4-zero-padded decimal of
`max(parsed suffixes) + 1` (or `1` when no id suffix parses) — witnessed here
by the suffix of the returned id parsing back to exactly that number and the
id starting with `"STN-"` — and the returned id is not the `item_id` of any
row of the table. -/
theorem c1_generate_item_id_spec (df : Table) :
    (df = [] → generate_item_id df = "STN-0001") ∧
    (generate_item_id df).data.take 4 = ['S', 'T', 'N', '-'] ∧
    parse_suffix (generate_item_id df) =
      some (if df = [] ∨ parsed_suffix_nums df = [] then 1
            else (parsed_suffix_nums df).foldl Nat.max 0 + 1) ∧
    (∀ r ∈ df, r.item_id ≠ some (generate_item_id df)) := by
  refine ⟨fun h => by rw [h]; rfl, ?_, ?_, fun r hr => generate_item_id_fresh df r hr⟩
  · cases df with
    | nil => decide
    | cons a t =>
      rw [generate_item_id, if_neg (by simp)]
      rw [String.data_append]
      rfl
  · cases df with
    | nil =>
      simp only [generate_item_id, List.isEmpty_nil, if_pos rfl, true_or, if_pos]
      decide
    | cons a t =>
      rw [generate_item_id, if_neg (by simp)]
      rw [parse_suffix_generated]
      by_cases hempty : parsed_suffix_nums (a :: t) = []
      · simp [hempty]
      · simp [hempty, List.isEmpty_iff]

/-- Claim C6: `apply_filters` returns exactly the rows satisfying the
conjunction of the supplied restrictions — category membership when the
category list is nonempty, location membership when the location list is
nonempty, low stock when requested — in the input order; this is stated as
equality with a single order-preserving `filter` by the conjoined
predicate. -/
theorem c6_apply_filters_spec (df : Table) (cf lf : List String) (low : Bool) :
    apply_filters df cf lf low =
      df.filter (fun r =>
        (decide (cf = []) || decide (r.category ∈ cf)) &&
        ((decide (lf = []) || decide (r.location ∈ lf)) &&
         (!low || decide (r.quantity ≤ r.reorder_level)))) := by
  unfold apply_filters
  by_cases hcf : cf = [] <;> by_cases hlf : lf = [] <;> cases low <;>
    simp [hcf, hlf, List.filter_filter, List.isEmpty_iff,
      Bool.and_comm, Bool.and_left_comm, Bool.and_assoc]

/-- Claim C9: `deleteItem` removes exactly the rows with the matching id,
keeps the remaining rows in order (the result is a sublist of the input), and
is a silent no-op — the table unchanged, no error — when no row has the id. -/
theorem c9_deleteItem_spec (df : Table) (sid : String) :
    ((∀ r ∈ df, r.item_id ≠ some sid) → deleteItem df sid = df) ∧
    (deleteItem df sid).Sublist df ∧
    (∀ r, r ∈ deleteItem df sid ↔ r ∈ df ∧ r.item_id ≠ some sid) := by
  refine ⟨fun h => ?_, List.filter_sublist df, fun r => ?_⟩
  · exact List.filter_eq_self.mpr (fun r hr => by simpa using h r hr)
  · simp [deleteItem, List.mem_filter]

/-- Witness for C9 at a concrete table: deleting an id that no row carries
returns the table unchanged. -/
theorem c9_deleteItem_witness :
    deleteItem [sampleItem] "STN-0099" = [sampleItem] :=
  (c9_deleteItem_spec [sampleItem] "STN-0099").1 (by decide)

lemma dropWhile_eq_self_of_head {p : Char → Bool} (l : List Char)
    (h : ∀ c, l.head? = some c → p c = false) : l.dropWhile p = l := by
  cases l with
  | nil => rfl
  | cons c t => simp [List.dropWhile_cons, h c rfl]

lemma strip_space_pipe_eq_self (s : String)
    (hh : ∀ c, s.data.head? = some c → spacePipe c = false)
    (hl : ∀ c, s.data.getLast? = some c → spacePipe c = false) :
    strip_space_pipe s = s := by
  rw [strip_space_pipe, dropWhile_eq_self_of_head _ hh,
    dropWhile_eq_self_of_head _
      (fun c hc => hl c (by rwa [List.head?_reverse] at hc)),
    List.reverse_reverse]

lemma audit_line_getLast (now w q r : String) :
    (audit_line now w q r).data.getLast? = some ')' := by
  rw [audit_line, String.data_append, show (")" : String).data = [')'] from rfl]
  exact List.getLast?_concat _

lemma audit_line_head (now w q r : String) :
    (audit_line now w q r).data.head? = some '[' := by
  rw [audit_line]
  simp [String.data_append, List.head?_append,
    show ("[" : String).data = ['['] from rfl]

lemma strip_join_of_empty_old (line : String)
    (h1 : line.data.head? = some '[') (h2 : line.data.getLast? = some ')') :
    strip_space_pipe ("" ++ " | " ++ line) = line := by
  have hd : ("" ++ " | " ++ line).data = ' ' :: '|' :: ' ' :: line.data := by
    simp [String.data_append, show ("" : String).data = [] from rfl,
      show (" | " : String).data = [' ', '|', ' '] from rfl]
  have h3 : List.dropWhile spacePipe (' ' :: '|' :: ' ' :: line.data)
      = List.dropWhile spacePipe line.data := by
    simp [List.dropWhile_cons, spacePipe]
  have hL : List.dropWhile spacePipe line.data = line.data :=
    dropWhile_eq_self_of_head _
      (fun c hc => by rw [h1] at hc; cases hc; decide)
  have hR : List.dropWhile spacePipe line.data.reverse = line.data.reverse :=
    dropWhile_eq_self_of_head _
      (fun c hc => by rw [List.head?_reverse, h2] at hc; cases hc; decide)
  rw [strip_space_pipe, hd, h3, hL, hR, List.reverse_reverse]

lemma strip_join_of_clean_old (old line : String) (c1 : Char)
    (hh : old.data.head? = some c1) (hc1 : spacePipe c1 = false)
    (h2 : line.data.getLast? = some ')') :
    strip_space_pipe (old ++ " | " ++ line) = old ++ " | " ++ line := by
  apply strip_space_pipe_eq_self
  · intro c hc
    rw [String.data_append, String.data_append, List.head?_append,
      List.head?_append, hh] at hc
    simp only [Option.or_some] at hc
    cases hc
    exact hc1
  · intro c hc
    rw [String.data_append, String.data_append, List.getLast?_append, h2] at hc
    simp only [Option.or_some] at hc
    cases hc
    decide

lemma txn_row_remarks (row : Item) (new_qty : Int) (mode : TxnMode)
    (qty : Int) (reason now : String) :
    (txn_row row new_qty mode qty reason now).remarks =
      some (strip_space_pipe (row.remarks.getD "" ++ " | " ++
        audit_line now (mode_word mode) (toString qty) reason)) := by
  cases h : row.remarks <;> simp [txn_row, h]

lemma txn_eq_ok_issue (df : Table) (sid : String) (qty : Int)
    (reason now : String) (idx : Nat) (row : Item)
    (hidx : df.findIdx? (fun r => r.item_id = some sid) = some idx)
    (hrow : df[idx]? = some row) (hq : ¬ qty > row.quantity) :
    page_issue_receive_txn df sid .issue qty reason now =
      .ok (txn_apply df idx row (row.quantity - qty) .issue qty reason now) := by
  simp [page_issue_receive_txn, hidx, hrow, hq]

lemma txn_eq_ok_receive (df : Table) (sid : String) (qty : Int)
    (reason now : String) (idx : Nat) (row : Item)
    (hidx : df.findIdx? (fun r => r.item_id = some sid) = some idx)
    (hrow : df[idx]? = some row) :
    page_issue_receive_txn df sid .receive qty reason now =
      .ok (txn_apply df idx row (row.quantity + qty) .receive qty reason now) := by
  simp [page_issue_receive_txn, hidx, hrow]

lemma txn_eq_error_insufficient (df : Table) (sid : String) (qty : Int)
    (reason now : String) (idx : Nat) (row : Item)
    (hidx : df.findIdx? (fun r => r.item_id = some sid) = some idx)
    (hrow : df[idx]? = some row) (hq : qty > row.quantity) :
    page_issue_receive_txn df sid .issue qty reason now =
      .error .insufficientStock := by
  simp [page_issue_receive_txn, hidx, hrow, hq]

lemma findIdx?_eq_none_of_absent (df : Table) (sid : String)
    (habs : ∀ r ∈ df, r.item_id ≠ some sid) :
    df.findIdx? (fun r => r.item_id = some sid) = none :=
  List.findIdx?_eq_none_iff.mpr (fun x hx => by simpa using habs x hx)

/-- Claim C3: with the item found by id and `qty ≥ 1`, issuing more than the
current quantity fails with the insufficient-stock error and nothing is saved
— the stored table persists completely unchanged, every row untouched; issuing
at most the current quantity succeeds, the row count is preserved, the row's
new quantity is `current - qty`, and no other row is touched. -/
theorem c3_issue_guard_spec (df : Table) (sid : String) (qty : Int)
    (reason now : String) (idx : Nat) (row : Item)
    (hidx : df.findIdx? (fun r => r.item_id = some sid) = some idx)
    (hrow : df[idx]? = some row) (_hq1 : 1 ≤ qty) :
    (qty > row.quantity →
      page_issue_receive_txn df sid .issue qty reason now =
        .error .insufficientStock ∧
      persist df (page_issue_receive_txn df sid .issue qty reason now) = df) ∧
    (qty ≤ row.quantity →
      (page_issue_receive_txn df sid .issue qty reason now).map List.length =
        .ok df.length ∧
      (page_issue_receive_txn df sid .issue qty reason now).map
          (fun t => (t[idx]?).map Item.quantity) =
        .ok (some (row.quantity - qty)) ∧
      (∀ j, j ≠ idx →
        (page_issue_receive_txn df sid .issue qty reason now).map
          (fun t => t[j]?) = .ok df[j]?)) := by
  obtain ⟨hlt, -⟩ := List.getElem?_eq_some.mp hrow
  constructor
  · intro h
    rw [txn_eq_error_insufficient df sid qty reason now idx row hidx hrow h]
    exact ⟨rfl, rfl⟩
  · intro h
    have hne : ¬ qty > row.quantity := by omega
    rw [txn_eq_ok_issue df sid qty reason now idx row hidx hrow hne]
    refine ⟨by simp [Except.map, txn_apply], ?_, ?_⟩
    · simp [Except.map, txn_apply, List.getElem?_set_self hlt, txn_row]
    · intro j hj
      simp [Except.map, txn_apply, List.getElem?_set_ne (fun he => hj he.symm)]

/-- Witness for C3 at the sample row (quantity 5): issuing 7 fails with the
insufficient-stock error and persists nothing. -/
theorem c3_issue_guard_witness :
    page_issue_receive_txn [sampleItem] "STN-0001" TxnMode.issue 7 "audit"
        "2024-05-02 09:00:00" = .error .insufficientStock ∧
    persist [sampleItem] (page_issue_receive_txn [sampleItem] "STN-0001"
        TxnMode.issue 7 "audit" "2024-05-02 09:00:00") = [sampleItem] :=
  (c3_issue_guard_spec [sampleItem] "STN-0001" 7 "audit" "2024-05-02 09:00:00"
    0 sampleItem (by decide) (by decide) (by decide)).1 (by decide)

lemma txn_remarks_strip (df : Table) (sid : String) (mode : TxnMode)
    (qty : Int) (reason now : String) (idx : Nat) (row : Item)
    (hidx : df.findIdx? (fun r => r.item_id = some sid) = some idx)
    (hrow : df[idx]? = some row)
    (hguard : mode = .issue → qty ≤ row.quantity) :
    (page_issue_receive_txn df sid mode qty reason now).map
        (fun t => (t[idx]?).map Item.remarks) =
      .ok (some (some (strip_space_pipe (row.remarks.getD "" ++ " | " ++
        audit_line now (mode_word mode) (toString qty) reason)))) := by
  obtain ⟨hlt, -⟩ := List.getElem?_eq_some.mp hrow
  cases mode with
  | issue =>
    have hne : ¬ qty > row.quantity := by
      have := hguard rfl
      omega
    rw [txn_eq_ok_issue df sid qty reason now idx row hidx hrow hne]
    simp [Except.map, txn_apply, List.getElem?_set_self hlt, txn_row_remarks]
  | receive =>
    rw [txn_eq_ok_receive df sid qty reason now idx row hidx hrow]
    simp [Except.map, txn_apply, List.getElem?_set_self hlt, txn_row_remarks]

/-- Counterexample to claim C2: the audit word written into `remarks` is the
bare first word of the radio label — `Issue` — not `Issued`; only the success
toast appends a `d` (src/app.py:258). Issuing 3 from the sample row (5 on
hand, empty remarks) stores `[...] Issue 3 (office)`, and that string differs
from the `[...] Issued 3 (office)` the claim requires. -/
theorem c2_issue_word_counterexample :
    page_issue_receive_txn [sampleItem] "STN-0001" TxnMode.issue 3 "office"
        "2024-05-02 09:00:00" =
      Except.ok [{ sampleItem with
        quantity := 2
        last_updated := "2024-05-02 09:00:00"
        remarks := some "[2024-05-02 09:00:00] Issue 3 (office)" }] ∧
    decide ("[2024-05-02 09:00:00] Issue 3 (office)" =
      "[2024-05-02 09:00:00] Issued 3 (office)") = false :=
  ⟨by decide, by decide⟩

/-- Claim C2 (amended): on every successful transaction the audit line
appended to the row's remarks is `[<timestamp>] <Issue|Receive> <qty>
(<reason>)` — the words are `Issue` and `Receive`, not `Issued`/`Received` —
joined to the prior remarks content (NaN reads as empty) with a literal
`" | "` separator and with leading/trailing space/`|` characters stripped;
in particular, when the prior content is nonempty and starts with a character
outside the strip set, the result is exactly the prior content, the
separator, and the line. -/
theorem c2_audit_line_spec (df : Table) (sid : String) (mode : TxnMode)
    (qty : Int) (reason now : String) (idx : Nat) (row : Item)
    (hidx : df.findIdx? (fun r => r.item_id = some sid) = some idx)
    (hrow : df[idx]? = some row)
    (hguard : mode = .issue → qty ≤ row.quantity) :
    (page_issue_receive_txn df sid mode qty reason now).map
        (fun t => (t[idx]?).map Item.remarks) =
      .ok (some (some (strip_space_pipe (row.remarks.getD "" ++ " | " ++
        audit_line now (mode_word mode) (toString qty) reason)))) ∧
    (∀ old c1, row.remarks = some old → old.data.head? = some c1 →
      spacePipe c1 = false →
      (page_issue_receive_txn df sid mode qty reason now).map
          (fun t => (t[idx]?).map Item.remarks) =
        .ok (some (some (old ++ " | " ++
          audit_line now (mode_word mode) (toString qty) reason)))) := by
  have hmain := txn_remarks_strip df sid mode qty reason now idx row hidx
    hrow hguard
  refine ⟨hmain, fun old c1 hold hh hc1 => ?_⟩
  rw [hmain, hold]
  rw [show (some old).getD "" = old from rfl]
  rw [strip_join_of_clean_old old _ c1 hh hc1 (audit_line_getLast _ _ _ _)]

/-- Witness for C2 (amended) at the second sample row: receiving 2 appends
`" | [ts] Receive 2 (po 7)"` to the prior remarks text `initial note`. -/
theorem c2_audit_line_witness :
    (page_issue_receive_txn [sampleItem2] "STN-0002" TxnMode.receive 2 "po 7"
        "2024-05-03 08:00:00").map (fun t => (t[0]?).map Item.remarks) =
      Except.ok (some (some ("initial note" ++ " | " ++
        audit_line "2024-05-03 08:00:00" (mode_word TxnMode.receive)
          (toString (2 : Int)) "po 7"))) :=
  (c2_audit_line_spec [sampleItem2] "STN-0002" TxnMode.receive 2 "po 7"
      "2024-05-03 08:00:00" 0 sampleItem2 (by decide) (by decide)
      (fun hm => absurd hm (by decide))).2
    "initial note" 'i' rfl (by decide) (by decide)

/-- Claim C10: a successful transaction on a row whose remarks cell is missing
(NaN) or empty stores exactly the new audit line — the missing value reads as
the empty string and the leading `" | "` the join would leave is stripped, so
no separator remains at either end. -/
theorem c10_empty_remarks_spec (df : Table) (sid : String) (mode : TxnMode)
    (qty : Int) (reason now : String) (idx : Nat) (row : Item)
    (hidx : df.findIdx? (fun r => r.item_id = some sid) = some idx)
    (hrow : df[idx]? = some row)
    (hrem : row.remarks = none ∨ row.remarks = some "")
    (hguard : mode = .issue → qty ≤ row.quantity) :
    (page_issue_receive_txn df sid mode qty reason now).map
        (fun t => (t[idx]?).map Item.remarks) =
      .ok (some (some (audit_line now (mode_word mode) (toString qty)
        reason))) := by
  have hmain := txn_remarks_strip df sid mode qty reason now idx row hidx
    hrow hguard
  have hempty : row.remarks.getD "" = "" := by
    rcases hrem with h | h <;> simp [h]
  rw [hmain, hempty, strip_join_of_empty_old _ (audit_line_head _ _ _ _)
    (audit_line_getLast _ _ _ _)]

/-- Counterexample to claim C4: for an id absent from the table, both the
transaction handler and the update handler fail with the uncaught positional
`IndexError` of `df.index[df["item_id"] == selected_id][0]` — a different
failure mode than the recoverable `NotFoundError` message the claim asserts
(the final `decide` separates the two error values). -/
theorem c4_not_found_counterexample :
    page_issue_receive_txn [sampleItem] "STN-9999" TxnMode.issue 1 "x"
        "2024-05-02 09:00:00" = Except.error AppError.indexError ∧
    updateItem [sampleItem] "STN-9999" "Pen" "" "" "" 1 1 ""
        "2024-05-02 09:00:00" = Except.error AppError.indexError ∧
    decide (AppError.indexError = AppError.notFound) = false :=
  ⟨by decide, by decide, by decide⟩

/-- Claim C4 (amended): for every table and id carried by no row, the
transaction handler and the update handler (with a nonblank name, so the
earlier validation check passes) both fail — but with the uncaught
`IndexError` of the positional lookup, not with a recoverable
`NotFoundError` surfaced as a message: no code path produces `notFound`. -/
theorem c4_absent_id_spec (df : Table) (sid : String) (mode : TxnMode)
    (qty : Int) (reason now : String)
    (item_name category unit location : String)
    (quantity reorder_level : Int) (remarks : String)
    (habs : ∀ r ∈ df, r.item_id ≠ some sid)
    (hname : ¬ py_strip item_name = "") :
    page_issue_receive_txn df sid mode qty reason now =
      .error .indexError ∧
    updateItem df sid item_name category unit location quantity reorder_level
        remarks now = .error .indexError := by
  have hnone := findIdx?_eq_none_of_absent df sid habs
  constructor
  · simp [page_issue_receive_txn, hnone]
  · simp [updateItem, hnone, hname]

/-- Witness for C4 (amended) at a concrete table and absent id. -/
theorem c4_absent_id_witness :
    page_issue_receive_txn [sampleItem] "STN-9999" TxnMode.receive 4 "po"
        "2024-05-02 09:00:00" = .error .indexError ∧
    updateItem [sampleItem] "STN-9999" "Pen" "" "" "" 1 1 ""
        "2024-05-02 09:00:00" = .error .indexError :=
  c4_absent_id_spec [sampleItem] "STN-9999" TxnMode.receive 4 "po"
    "2024-05-02 09:00:00" "Pen" "" "" "" 1 1 "" (by decide) (by decide)

/-- Claim C5: starting from a table whose quantities are all nonnegative,
every operation keeps them nonnegative — add and update with a caller-supplied
nonnegative quantity, issue (guarded by the insufficient-stock check) and
receive with `qty ≥ 1`, and delete. -/
theorem c5_quantity_nonneg_spec (df : Table)
    (hdf : ∀ r ∈ df, 0 ≤ r.quantity) :
    (∀ item_name category unit location remarks now quantity reorder_level t,
      0 ≤ quantity →
      addItem df item_name category unit location quantity reorder_level
        remarks now = .ok t → ∀ r ∈ t, 0 ≤ r.quantity) ∧
    (∀ sid item_name category unit location remarks now quantity
        reorder_level t,
      0 ≤ quantity →
      updateItem df sid item_name category unit location quantity
        reorder_level remarks now = .ok t → ∀ r ∈ t, 0 ≤ r.quantity) ∧
    (∀ sid mode qty reason now t, 1 ≤ qty →
      page_issue_receive_txn df sid mode qty reason now = .ok t →
      ∀ r ∈ t, 0 ≤ r.quantity) ∧
    (∀ sid, ∀ r ∈ deleteItem df sid, 0 ≤ r.quantity) := by
  refine ⟨?_, ?_, ?_, ?_⟩
  · intro item_name category unit location remarks now quantity reorder_level
      t hq hok r hr
    by_cases hn : py_strip item_name = ""
    · simp [addItem, hn] at hok
    · simp only [addItem, hn, if_neg, ite_false, Except.ok.injEq] at hok
      subst hok
      rcases List.mem_append.mp hr with h | h
      · exact hdf r h
      · rcases List.mem_singleton.mp h with rfl
        simpa [new_item_row] using hq
  · intro sid item_name category unit location remarks now quantity
      reorder_level t hq hok r hr
    by_cases hn : py_strip item_name = ""
    · simp [updateItem, hn] at hok
    · rcases hf : df.findIdx? (fun r => r.item_id = some sid) with _ | idx
      · simp [updateItem, hn, hf] at hok
      · rcases hg : df[idx]? with _ | row
        · simp [updateItem, hn, hf, hg] at hok
        · simp only [updateItem, hn, hf, hg, if_neg, ite_false,
            Except.ok.injEq] at hok
          subst hok
          rcases List.mem_or_eq_of_mem_set hr with h | h
          · exact hdf r h
          · subst h
            simpa using hq
  · intro sid mode qty reason now t hq hok r hr
    rcases hf : df.findIdx? (fun r => r.item_id = some sid) with _ | idx
    · simp [page_issue_receive_txn, hf] at hok
    · rcases hg : df[idx]? with _ | row
      · simp [page_issue_receive_txn, hf, hg] at hok
      · have hrowmem : row ∈ df := by
          obtain ⟨hlt, he⟩ := List.getElem?_eq_some.mp hg
          exact he ▸ List.getElem_mem hlt
        have hrow0 : 0 ≤ row.quantity := hdf row hrowmem
        cases mode with
        | issue =>
          by_cases hgt : qty > row.quantity
          · simp [page_issue_receive_txn, hf, hg, hgt] at hok
          · rw [txn_eq_ok_issue df sid qty reason now idx row hf hg hgt]
              at hok
            rcases Except.ok.inj hok with rfl
            rcases List.mem_or_eq_of_mem_set hr with h | h
            · exact hdf r h
            · subst h
              simp only [txn_row]
              omega
        | receive =>
          rw [txn_eq_ok_receive df sid qty reason now idx row hf hg] at hok
          rcases Except.ok.inj hok with rfl
          rcases List.mem_or_eq_of_mem_set hr with h | h
          · exact hdf r h
          · subst h
            simp only [txn_row]
            omega
  · intro sid r hr
    exact hdf r (List.mem_filter.mp hr).1

/-- Witness for C5: the sample row survives a delete of an absent id with its
nonnegative quantity, through the invariant theorem. -/
theorem c5_quantity_nonneg_witness : 0 ≤ sampleItem.quantity :=
  (c5_quantity_nonneg_spec [sampleItem] (by decide)).2.2.2 "STN-9999"
    sampleItem (by decide)

/-- Claim C8: on the empty table, adding `A4 Paper` with quantity 0, reorder
level 10 and blank category/unit/location yields exactly one row with id
`STN-0001` and the three defaults; in general `addItem` fails with the
validation error exactly when the name is blank after stripping, and
otherwise appends one row carrying a fresh id (one no existing row has), the
stripped inputs with defaults applied, and `last_updated` stamped to `now`. -/
theorem c8_addItem_spec :
    (∀ now : String,
      addItem [] "A4 Paper" "" "" "" 0 10 "" now =
        Except.ok [{ item_id := some "STN-0001"
                     item_name := "A4 Paper"
                     category := "Uncategorized"
                     unit := "Nos"
                     quantity := 0
                     reorder_level := 10
                     location := "Not specified"
                     last_updated := now
                     remarks := some "" }]) ∧
    (∀ df item_name category unit location remarks now quantity reorder_level,
      (py_strip item_name = "" →
        addItem df item_name category unit location quantity reorder_level
          remarks now = .error .validation) ∧
      (¬ py_strip item_name = "" →
        addItem df item_name category unit location quantity reorder_level
            remarks now =
          .ok (df ++ [new_item_row df item_name category unit location
            quantity reorder_level remarks now]) ∧
        (new_item_row df item_name category unit location quantity
            reorder_level remarks now).item_id =
          some (generate_item_id df) ∧
        (∀ r ∈ df, r.item_id ≠ (new_item_row df item_name category unit
          location quantity reorder_level remarks now).item_id) ∧
        (new_item_row df item_name category unit location quantity
            reorder_level remarks now).item_name = py_strip item_name ∧
        (new_item_row df item_name category unit location quantity
            reorder_level remarks now).category =
          orDefault (py_strip category) "Uncategorized" ∧
        (new_item_row df item_name category unit location quantity
            reorder_level remarks now).unit =
          orDefault (py_strip unit) "Nos" ∧
        (new_item_row df item_name category unit location quantity
            reorder_level remarks now).location =
          orDefault (py_strip location) "Not specified" ∧
        (new_item_row df item_name category unit location quantity
            reorder_level remarks now).last_updated = now)) := by
  constructor
  · intro now
    rw [addItem, if_neg (by decide)]
    rfl
  · intro df item_name category unit location remarks now quantity
      reorder_level
    refine ⟨fun hn => by simp [addItem, hn], fun hn => ?_⟩
    refine ⟨by simp [addItem, hn], rfl, ?_, rfl, rfl, rfl, rfl, rfl⟩
    intro r hr
    simpa [new_item_row] using generate_item_id_fresh df r hr

/-- Witness for C8: the scenario at a concrete timestamp, and a blank-name
rejection on a nonempty table. -/
theorem c8_addItem_witness :
    addItem [] "A4 Paper" "" "" "" 0 10 "" "2024-05-01 10:00:00" =
      Except.ok [{ item_id := some "STN-0001"
                   item_name := "A4 Paper"
                   category := "Uncategorized"
                   unit := "Nos"
                   quantity := 0
                   reorder_level := 10
                   location := "Not specified"
                   last_updated := "2024-05-01 10:00:00"
                   remarks := some "" }] ∧
    addItem [sampleItem] "   " "Paper" "" "" 3 1 "" "2024-05-01 10:00:00" =
      Except.error AppError.validation :=
  ⟨c8_addItem_spec.1 "2024-05-01 10:00:00",
   (c8_addItem_spec.2 [sampleItem] "   " "Paper" "" "" ""
      "2024-05-01 10:00:00" 3 1).1 (by decide)⟩

/-- Witness for C1: on the empty table the generator returns `STN-0001`, and
on the one-row sample table (id suffix 1) the returned id's suffix parses to
2 = max + 1. -/
theorem c1_generate_item_id_witness :
    generate_item_id [] = "STN-0001" ∧
    parse_suffix (generate_item_id [sampleItem]) = some 2 := by
  refine ⟨(c1_generate_item_id_spec []).1 rfl, ?_⟩
  have h := (c1_generate_item_id_spec [sampleItem]).2.2.1
  rw [h]
  decide

/-- Witness for C10 at the sample row (remarks NaN): after issuing 3, the
stored remarks are exactly the audit line, with no separator. -/
theorem c10_empty_remarks_witness :
    (page_issue_receive_txn [sampleItem] "STN-0001" TxnMode.issue 3 "office"
        "2024-05-02 09:00:00").map (fun t => (t[0]?).map Item.remarks) =
      Except.ok (some (some (audit_line "2024-05-02 09:00:00"
        (mode_word TxnMode.issue) (toString (3 : Int)) "office"))) :=
  c10_empty_remarks_spec [sampleItem] "STN-0001" TxnMode.issue 3 "office"
    "2024-05-02 09:00:00" 0 sampleItem (by decide) (by decide) (Or.inl rfl)
    (fun _ => by decide)
